import Mathlib

/-!
Shallow embedding of the OpenClaw mission-control dashboard
(`src/dashboard/src/App.tsx`): the data model, the derived-view
aggregators (`overdueCount`, `perfByAgent`, `typeCounts`, `typeHealth`,
`typeLastActivity`, `selectedAgent`) and the fetch/refresh controller
(`fetchAll` inside the polling effect), together with theorems settling
the specification claims about them.

Modelling conventions:
- JavaScript strings are Lean `String`; `===` on strings is `==`.
- ISO timestamp strings that the code immediately parses with `new Date`
  and only ever compares (`typeLastActivity`) are modelled as `Nat`
  millisecond values, order-isomorphic to the `Date` comparisons the code
  performs; timestamp strings the code only renders stay `String`.
- Floating-point metric fields are never computed with by the code under
  study (only rendered), so they are carried as `Rat` values.
- JavaScript truthiness on `string | null` values (`!selectedAgentId`)
  is modelled exactly: `null` and the empty string are falsy.
-/

/-- `type AgentType = 'CrewAI' | 'LangGraph' | 'BeeAI' | 'OpenClaw' | 'Admin'` -/
inductive AgentType where
  | CrewAI
  | LangGraph
  | BeeAI
  | OpenClaw
  | Admin
deriving DecidableEq, Repr

/-- `type AgentStatus = 'online' | 'offline' | 'busy' | 'error'` -/
inductive AgentStatus where
  | online
  | offline
  | busy
  | error
deriving DecidableEq, Repr

/-- `interface Agent` from App.tsx. -/
structure Agent where
  id : String
  name : String
  type : AgentType
  status : AgentStatus
  last_heartbeat : String
  current_task_id : Option String := none
deriving DecidableEq, Repr

/-- `interface Heartbeat`; `timestamp` is the parsed millisecond value of the
ISO string (the code only ever compares these via `new Date`). -/
structure Heartbeat where
  id : String
  agent_id : String
  timestamp : Nat
  status : AgentStatus
deriving DecidableEq, Repr

/-- `type AlertSeverity = 'info' | 'warning' | 'critical'` -/
inductive AlertSeverity where
  | info
  | warning
  | critical
deriving DecidableEq, Repr

/-- `interface Alert` from App.tsx. -/
structure Alert where
  id : String
  severity : AlertSeverity
  message : String
  related_agent_id : Option String := none
  created_at : String
deriving DecidableEq, Repr

/-- `interface PerformanceMetric` from App.tsx (numeric fields are only
rendered, never computed with, so they are carried as exact rationals). -/
structure PerformanceMetric where
  agent_id : String
  cpu_usage : Rat
  memory_usage : Rat
  tasks_per_minute : Rat
  error_rate_per_hour : Rat
deriving DecidableEq, Repr

/-! ## Derived-view aggregators (the `useMemo` blocks of App.tsx) -/

/-- `agents.filter((a) => a.status === 'offline' || a.status === 'error').length` -/
def overdueCount (agents : List Agent) : Nat :=
  (agents.filter (fun a => a.status == AgentStatus.offline || a.status == AgentStatus.error)).length

/-- `alerts.filter((a) => a.severity === 'critical').length` -/
def highPriorityAlertsCount (alerts : List Alert) : Nat :=
  (alerts.filter (fun a => a.severity == AlertSeverity.critical)).length

/-- One `map.set(m.agent_id, m)` step of the `perfByAgent` loop: the JS `Map`
is modelled as the lookup function it induces. -/
def perfSet (map : String → Option PerformanceMetric) (m : PerformanceMetric) :
    String → Option PerformanceMetric :=
  fun id => if id = m.agent_id then some m else map id

/-- `perfByAgent`: `perfMetrics.forEach((m) => map.set(m.agent_id, m))`
starting from the empty `Map`. -/
def perfByAgent (perfMetrics : List PerformanceMetric) : String → Option PerformanceMetric :=
  perfMetrics.foldl perfSet (fun _ => none)

/-- One `counts[a.type] += 1` step of the `typeCounts` loop. -/
def countStep (counts : AgentType → Nat) (a : Agent) : AgentType → Nat :=
  fun t => if t = a.type then counts t + 1 else counts t

/-- `typeCounts`: all five buckets start at 0, then `agents.forEach((a) => counts[a.type] += 1)`. -/
def typeCounts (agents : List Agent) : AgentType → Nat :=
  agents.foldl countStep (fun _ => 0)

/-- One step of the `typeHealth` loop: bump the `online` bucket of the agent's
type when its status is `online` or `busy`, else bump the `offline` bucket.
The pair is (online, offline). -/
def healthStep (health : AgentType → Nat × Nat) (a : Agent) : AgentType → Nat × Nat :=
  fun t =>
    if t = a.type then
      if a.status == AgentStatus.online || a.status == AgentStatus.busy then
        ((health t).1 + 1, (health t).2)
      else
        ((health t).1, (health t).2 + 1)
    else health t

/-- `typeHealth`: every type starts at `{ online: 0, offline: 0 }`. -/
def typeHealth (agents : List Agent) : AgentType → Nat × Nat :=
  agents.foldl healthStep (fun _ => (0, 0))

/-- `agents.find((a) => a.id === hb.agent_id)` followed by `.type`. -/
def hbOwnerType (agents : List Agent) (hb : Heartbeat) : Option AgentType :=
  (agents.find? (fun a => a.id == hb.agent_id)).map Agent.type

/-- `if (!current || ts > current) last[agent.type] = ts` for one heartbeat. -/
def bumpLast (current : Option Nat) (ts : Nat) : Option Nat :=
  match current with
  | none => some ts
  | some c => if c < ts then some ts else some c

/-- One step of the `typeLastActivity` loop: heartbeats whose `agent_id`
resolves to no agent are skipped (`if (!agent) return`). -/
def lastStep (agents : List Agent) (last : AgentType → Option Nat) (hb : Heartbeat) :
    AgentType → Option Nat :=
  match hbOwnerType agents hb with
  | none => last
  | some ty => fun t => if t = ty then bumpLast (last t) hb.timestamp else last t

/-- `typeLastActivity`: every type starts at `null`. -/
def typeLastActivity (agents : List Agent) (heartbeats : List Heartbeat) :
    AgentType → Option Nat :=
  heartbeats.foldl (lastStep agents) (fun _ => none)

/-- `agents.find((a) => a.id === selectedAgentId) ?? null` (`===` against a
possibly-null id is false when the id is null, hence the `some` on the left). -/
def selectedAgent (agents : List Agent) (selectedAgentId : Option String) : Option Agent :=
  agents.find? (fun a => some a.id == selectedAgentId)

/-! ## Fetch/refresh controller (`fetchAll` and the polling `useEffect`) -/

/-- Outcome of one `fetch(...)`: the promise either resolves with an HTTP
status and a (successfully parsed) JSON body, or rejects with a transport
error whose message string comes from the runtime. -/
inductive FetchOutcome (α : Type) where
  | resolved (status : Nat) (body : List α)
  | rejected (msg : String)
deriving DecidableEq, Repr

/-- `Response.ok`: status in the inclusive range 200..299. -/
def statusOk (status : Nat) : Bool :=
  200 ≤ status && status ≤ 299

/-- The four resources fetched by one refresh cycle, in the order the code
issues and checks them. -/
inductive Resource where
  | agents
  | heartbeats
  | performanceMetrics
  | alerts
deriving DecidableEq, Repr

/-- The resource name as it appears in the thrown error messages. -/
def resourceName : Resource → String
  | Resource.agents => "agents"
  | Resource.heartbeats => "heartbeats"
  | Resource.performanceMetrics => "performance metrics"
  | Resource.alerts => "alerts"

/-- The message of the `Error` thrown on a non-success status, e.g.
`Failed to load agents: 500`. -/
def failMsg (res : Resource) (status : Nat) : String :=
  "Failed to load " ++ resourceName res ++ ": " ++ toString status

/-- The four responses of one refresh cycle. -/
structure CycleResponses where
  agentsRes : FetchOutcome Agent
  hbRes : FetchOutcome Heartbeat
  perfRes : FetchOutcome PerformanceMetric
  alertsRes : FetchOutcome Alert
deriving DecidableEq, Repr

/-- The HTTP status a resource resolved with, if its fetch did not reject. -/
def componentStatus (r : CycleResponses) : Resource → Option Nat :=
  fun res =>
    match res with
    | Resource.agents => match r.agentsRes with
      | FetchOutcome.resolved st _ => some st
      | FetchOutcome.rejected _ => none
    | Resource.heartbeats => match r.hbRes with
      | FetchOutcome.resolved st _ => some st
      | FetchOutcome.rejected _ => none
    | Resource.performanceMetrics => match r.perfRes with
      | FetchOutcome.resolved st _ => some st
      | FetchOutcome.rejected _ => none
    | Resource.alerts => match r.alertsRes with
      | FetchOutcome.resolved st _ => some st
      | FetchOutcome.rejected _ => none

/-- `res` resolved with a non-success HTTP status `st` in cycle `r`. -/
def failsWithStatus (r : CycleResponses) (res : Resource) (st : Nat) : Prop :=
  componentStatus r res = some st ∧ statusOk st = false

instance (r : CycleResponses) (res : Resource) (st : Nat) :
    Decidable (failsWithStatus r res st) := by
  unfold failsWithStatus; infer_instance

/-- The error message (if any) produced by one run of `fetchAll`'s `try`
block: `await Promise.all` rejects if any fetch rejected (when several
reject, the winner is picked by timing; we model the positional first),
otherwise the four `res.ok` checks throw in order agents, heartbeats,
performance metrics, alerts. JSON parsing is assumed to succeed. -/
def fetchError (r : CycleResponses) : Option String :=
  match r.agentsRes, r.hbRes, r.perfRes, r.alertsRes with
  | FetchOutcome.rejected m, _, _, _ => some m
  | _, FetchOutcome.rejected m, _, _ => some m
  | _, _, FetchOutcome.rejected m, _ => some m
  | _, _, _, FetchOutcome.rejected m => some m
  | FetchOutcome.resolved s1 _, FetchOutcome.resolved s2 _,
    FetchOutcome.resolved s3 _, FetchOutcome.resolved s4 _ =>
    if statusOk s1 = false then some (failMsg Resource.agents s1)
    else if statusOk s2 = false then some (failMsg Resource.heartbeats s2)
    else if statusOk s3 = false then some (failMsg Resource.performanceMetrics s3)
    else if statusOk s4 = false then some (failMsg Resource.alerts s4)
    else none

/-- The parsed body of a resolved fetch (only consulted after all four
`res.ok` checks pass, so the `rejected` branch is dead there). -/
def FetchOutcome.body {α : Type} : FetchOutcome α → List α
  | FetchOutcome.resolved _ b => b
  | FetchOutcome.rejected _ => []

/-- The component's `useState` fields that the claims are about.
`lastUpdated` is the millisecond value of the `new Date()` stamp. -/
structure DashState where
  agents : List Agent
  heartbeats : List Heartbeat
  perfMetrics : List PerformanceMetric
  alerts : List Alert
  loading : Bool
  error : Option String
  selectedAgentId : Option String
  lastUpdated : Option Nat
deriving DecidableEq, Repr

/-- The initial `useState` values. -/
def initialState : DashState :=
  { agents := []
    heartbeats := []
    perfMetrics := []
    alerts := []
    loading := true
    error := none
    selectedAgentId := none
    lastUpdated := none }

/-- JavaScript truthiness of a `string | null` value: `null` and the empty
string are falsy (`!selectedAgentId`, `!error`). -/
def jsFalsy : Option String → Bool
  | none => true
  | some s => s == ""

/-- One complete run of `fetchAll` applied to the state it observes.
On failure only `error` is written (plus `loading` via `finally`); on
success the four collections are replaced, `error` cleared, `lastUpdated`
stamped with `now`, and the selection bootstrapped:
`if (!selectedAgentId && agentsData.length > 0) setSelectedAgentId(agentsData[0].id)`.
The effect closure's captured `selectedAgentId` equals the state field
because the effect re-runs whenever `selectedAgentId` changes. -/
def fetchAll (r : CycleResponses) (now : Nat) (s : DashState) : DashState :=
  match fetchError r with
  | some msg => { s with loading := false, error := some msg }
  | none =>
    { s with
      agents := r.agentsRes.body
      heartbeats := r.hbRes.body
      perfMetrics := r.perfRes.body
      alerts := r.alertsRes.body
      loading := false
      error := none
      lastUpdated := some now
      selectedAgentId :=
        match r.agentsRes.body with
        | [] => s.selectedAgentId
        | a :: _ =>
          if jsFalsy s.selectedAgentId then some a.id else s.selectedAgentId }

/-! ## Render guards relevant to the claims -/

/-- The `columns` div (agents list, tables, detail pane) renders only under
`!loading && !error`. -/
def columnsVisible (s : DashState) : Bool :=
  !s.loading && jsFalsy s.error

/-- The agents the user can actually see: the left rail renders `agents`
only when the columns are visible. -/
def visibleAgents (s : DashState) : List Agent :=
  if columnsVisible s then s.agents else []

/-- The error banner renders under `error && !loading`. -/
def errorBannerVisible (s : DashState) : Bool :=
  !jsFalsy s.error && !s.loading

/-- The detail pane shows the `Select an agent to view details` placeholder
exactly when `selectedAgent` resolves to null. -/
def detailPlaceholder (s : DashState) : Bool :=
  (selectedAgent s.agents s.selectedAgentId).isNone

/-! ## Interleaving of refresh cycles

The effect never cancels in-flight requests, so several cycles can be in
flight; each cycle ends by running the tail of `fetchAll` on whatever
state is current. `Ev.start n` marks cycle `n` being issued and
`Ev.deliver n r now` marks its responses `r` arriving. -/

inductive Ev where
  | start (n : Nat)
  | deliver (n : Nat) (r : CycleResponses) (now : Nat)
deriving Repr

/-- What the code does at each event: nothing at a start (it keeps no record
of cycles), and an unconditional `fetchAll` application at each delivery. -/
def stepCode (s : DashState) : Ev → DashState
  | Ev.start _ => s
  | Ev.deliver _ r now => fetchAll r now s

/-- The state after a sequence of cycle events, as the code computes it. -/
def runCode (evs : List Ev) (s : DashState) : DashState :=
  evs.foldl stepCode s

/-- Modelled from the spec: the stale-cycle discard rule of design note §9
(missing from the code under src/) — a monotonically increasing cycle
counter is attached to each request and a delivery is applied only when its
counter is the latest started one. -/
def stepDiscard (p : DashState × Nat) (e : Ev) : DashState × Nat :=
  match e with
  | Ev.start n => (p.1, max p.2 n)
  | Ev.deliver n r now => if n = p.2 then (fetchAll r now p.1, p.2) else p

/-- The state after a sequence of cycle events under the spec's discard rule. -/
def runDiscard (evs : List Ev) (s : DashState) : DashState :=
  (evs.foldl stepDiscard (s, 0)).1

/-! ## Sample data (used by counterexamples and witnesses) -/

/-- A CrewAI agent that is online. -/
def agentA : Agent :=
  { id := "a1", name := "Agent A", type := AgentType.CrewAI,
    status := AgentStatus.online, last_heartbeat := "2026-01-01T00:00:00Z" }

/-- A LangGraph agent that is in error. -/
def agentB : Agent :=
  { id := "b1", name := "Agent B", type := AgentType.LangGraph,
    status := AgentStatus.error, last_heartbeat := "2026-01-01T00:05:00Z" }

/-! ## Further definitions used by the claim statements -/

/-- All four fetches resolved (none rejected at the transport level). -/
def allResolved (r : CycleResponses) : Bool :=
  (componentStatus r Resource.agents).isSome && (componentStatus r Resource.heartbeats).isSome
    && (componentStatus r Resource.performanceMetrics).isSome
    && (componentStatus r Resource.alerts).isSome

/-- The first resource, in the code's check order, that resolved with a
non-success HTTP status, together with that status. -/
def firstBadStatus (r : CycleResponses) : Option (Resource × Nat) :=
  [Resource.agents, Resource.heartbeats, Resource.performanceMetrics, Resource.alerts].findSome?
    (fun res =>
      match componentStatus r res with
      | some st => if statusOk st then none else some (res, st)
      | none => none)

/-- Claim C1 as stated, at one input: a failing cycle updates none of the
four collections, surfaces a single message naming the failing resource and
its status code, and keeps the previously displayed agents visible. -/
def refreshFailureClaim (r : CycleResponses) (now : Nat) (s : DashState) : Prop :=
  (fetchAll r now s).agents = s.agents
  ∧ (fetchAll r now s).heartbeats = s.heartbeats
  ∧ (fetchAll r now s).perfMetrics = s.perfMetrics
  ∧ (fetchAll r now s).alerts = s.alerts
  ∧ (∃ res st, failsWithStatus r res st ∧ (fetchAll r now s).error = some (failMsg res st))
  ∧ visibleAgents (fetchAll r now s) = visibleAgents s

/-- Claim C2 as stated: the code's handling of interleaved cycles coincides
with the spec's discard-superseded-cycles rule on every schedule. -/
def staleDiscardClaim : Prop :=
  ∀ evs s, runCode evs s = runDiscard evs s

/-- Claim C5 as stated, at one input: after a successful cycle, a null
selection is bootstrapped from a non-empty collection, an empty collection
leaves nothing selected with the placeholder showing, and an existing
selection always survives. -/
def selectionBootstrapClaim (r : CycleResponses) (now : Nat) (s : DashState) : Prop :=
  fetchError r = none →
  ((s.selectedAgentId = none → r.agentsRes.body ≠ [] →
      (fetchAll r now s).selectedAgentId = (r.agentsRes.body.map Agent.id).head?)
   ∧ (s.selectedAgentId = none → r.agentsRes.body = [] →
      (fetchAll r now s).selectedAgentId = none ∧ detailPlaceholder (fetchAll r now s) = true)
   ∧ (∀ sid, s.selectedAgentId = some sid →
      (fetchAll r now s).selectedAgentId = some sid))

/-- Claim C10 as stated, at one input: a successful cycle changes the
selection only from null, and a dangling selected identifier is always
kept. -/
def selectionFrameClaim (r : CycleResponses) (now : Nat) (s : DashState) : Prop :=
  fetchError r = none →
  (((fetchAll r now s).selectedAgentId ≠ s.selectedAgentId →
      s.selectedAgentId = none ∧ r.agentsRes.body ≠ [])
   ∧ (∀ sid, s.selectedAgentId = some sid → sid ∉ r.agentsRes.body.map Agent.id →
      (fetchAll r now s).selectedAgentId = some sid))

/-! ## Concrete cycles and states for counterexamples and witnesses -/

/-- A cycle whose agents fetch rejects at the transport level while the
other three succeed. -/
def rNet : CycleResponses :=
  { agentsRes := FetchOutcome.rejected "Failed to fetch"
    hbRes := FetchOutcome.resolved 200 []
    perfRes := FetchOutcome.resolved 200 []
    alertsRes := FetchOutcome.resolved 200 [] }

/-- The spec's scenario: the alerts fetch returns HTTP 500 while the other
three succeed. -/
def r500 : CycleResponses :=
  { agentsRes := FetchOutcome.resolved 200 [agentA]
    hbRes := FetchOutcome.resolved 200 []
    perfRes := FetchOutcome.resolved 200 []
    alertsRes := FetchOutcome.resolved 500 [] }

/-- A fully successful cycle delivering agent collection `[agentA]`. -/
def rA : CycleResponses :=
  { agentsRes := FetchOutcome.resolved 200 [agentA]
    hbRes := FetchOutcome.resolved 200 []
    perfRes := FetchOutcome.resolved 200 []
    alertsRes := FetchOutcome.resolved 200 [] }

/-- A fully successful cycle delivering agent collection `[agentB]`. -/
def rB : CycleResponses :=
  { agentsRes := FetchOutcome.resolved 200 [agentB]
    hbRes := FetchOutcome.resolved 200 []
    perfRes := FetchOutcome.resolved 200 []
    alertsRes := FetchOutcome.resolved 200 [] }

/-- A state currently displaying one agent with a live selection. -/
def sShowing : DashState :=
  { agents := [agentA]
    heartbeats := []
    perfMetrics := []
    alerts := []
    loading := false
    error := none
    selectedAgentId := some "a1"
    lastUpdated := some 5 }

/-- A quiescent state whose selection cannot be bootstrapped away. -/
def sKeep : DashState :=
  { initialState with loading := false, selectedAgentId := some "keep" }

/-- A state whose selected identifier is the empty string. -/
def sEmptySel : DashState :=
  { initialState with loading := false, selectedAgentId := some "" }

/-- A state displaying `[agentA]` whose selected identifier is the empty
string. -/
def sStaleSel : DashState :=
  { initialState with loading := false, agents := [agentA], selectedAgentId := some "" }

/-- A displayed state whose selected identifier matches no agent. -/
def sW : DashState :=
  { agents := [agentA, agentB]
    heartbeats := []
    perfMetrics := []
    alerts := []
    loading := false
    error := none
    selectedAgentId := some "zz"
    lastUpdated := some 1 }

/-- Cycle 1 starts, cycle 2 starts, cycle 2's responses arrive, then cycle
1's stale responses arrive last. -/
def evStale : List Ev :=
  [Ev.start 1, Ev.start 2, Ev.deliver 2 rB 10, Ev.deliver 1 rA 11]

/-! ## Helper lemmas -/

/-- A selected identifier carried by no agent makes `agents.find` miss. -/
theorem selectedAgent_none_of_missing (agents : List Agent) (sid : String)
    (h : sid ∉ agents.map Agent.id) : selectedAgent agents (some sid) = none := by
  unfold selectedAgent
  rw [List.find?_eq_none]
  intro a ha hpa
  exact h (List.mem_map.mpr ⟨a, ha, by simpa using hpa⟩)

/-- Appending one timestamp to a list turns its `max?` through one
`bumpLast` step (the loop body of `typeLastActivity`). -/
theorem max?_concat_bumpLast (xs : List Nat) (x : Nat) :
    (xs ++ [x]).max? = bumpLast xs.max? x := by
  cases xs with
  | nil => simp [List.max?, bumpLast]
  | cons y ys =>
    have h1 : ((y :: ys) ++ [x]).max? = some (List.foldl max y (ys ++ [x])) := rfl
    have h2 : (y :: ys).max? = some (List.foldl max y ys) := rfl
    rw [h1, h2, List.foldl_append]
    simp only [List.foldl_cons, List.foldl_nil, bumpLast]
    rcases Nat.lt_or_ge (List.foldl max y ys) x with h | h
    · rw [if_pos h, Nat.max_eq_right (Nat.le_of_lt h)]
    · rw [if_neg (Nat.not_lt.mpr h), Nat.max_eq_left h]

/-- One step of the `typeCounts` loop adds one to the total of all buckets. -/
theorem sumAllTypes_countStep (c : AgentType → Nat) (a : Agent) :
    (countStep c a) AgentType.CrewAI + (countStep c a) AgentType.LangGraph
      + (countStep c a) AgentType.BeeAI + (countStep c a) AgentType.OpenClaw
      + (countStep c a) AgentType.Admin
    = c AgentType.CrewAI + c AgentType.LangGraph + c AgentType.BeeAI
      + c AgentType.OpenClaw + c AgentType.Admin + 1 := by
  cases h : a.type <;> simp [countStep, h] <;> omega

/-! ## Claim theorems: derived-view aggregators -/

/-- C6: for every agent collection, the overdue count equals the number of
agents whose status is offline or error, and is at most the total agent
count. -/
theorem overdue_count_bound (agents : List Agent) :
    overdueCount agents
      = agents.countP (fun a => decide (a.status = AgentStatus.offline ∨ a.status = AgentStatus.error))
    ∧ overdueCount agents ≤ agents.length := by
  have hp : (fun a : Agent => a.status == AgentStatus.offline || a.status == AgentStatus.error)
      = (fun a : Agent => decide (a.status = AgentStatus.offline ∨ a.status = AgentStatus.error)) := by
    funext a; cases a.status <;> rfl
  constructor
  · rw [overdueCount, hp, List.countP_eq_length_filter]
  · exact List.length_filter_le _ _

/-- C8: for every agent collection, the per-type counts over the five fixed
agent types sum to the total number of agents. -/
theorem type_counts_total (agents : List Agent) :
    typeCounts agents AgentType.CrewAI + typeCounts agents AgentType.LangGraph
      + typeCounts agents AgentType.BeeAI + typeCounts agents AgentType.OpenClaw
      + typeCounts agents AgentType.Admin
    = agents.length := by
  unfold typeCounts
  induction agents using List.reverseRecOn with
  | nil => rfl
  | append_singleton l a ih =>
    rw [List.foldl_append, List.foldl_cons, List.foldl_nil]
    rw [sumAllTypes_countStep, ih]
    simp

/-- `countP` over a one-element extension on the right. -/
theorem countP_concat {α : Type} (p : α → Bool) (l : List α) (a : α) :
    (l ++ [a]).countP p = l.countP p + if p a then 1 else 0 := by
  simp [List.countP_append, List.countP_cons]

/-- C4: for every agent collection and type, the health buckets classify an
agent as online exactly when its status is online or busy, as offline
exactly when its status is offline or error, and online + offline equals
that type's agent count. -/
theorem type_health_partition (agents : List Agent) (t : AgentType) :
    (typeHealth agents t).1
      = agents.countP (fun a =>
          decide (a.type = t ∧ (a.status = AgentStatus.online ∨ a.status = AgentStatus.busy)))
    ∧ (typeHealth agents t).2
      = agents.countP (fun a =>
          decide (a.type = t ∧ (a.status = AgentStatus.offline ∨ a.status = AgentStatus.error)))
    ∧ (typeHealth agents t).1 + (typeHealth agents t).2 = typeCounts agents t := by
  induction agents using List.reverseRecOn with
  | nil => simp [typeHealth, typeCounts]
  | append_singleton l a ih =>
    obtain ⟨ih1, ih2, ih3⟩ := ih
    have hH : typeHealth (l ++ [a]) = healthStep (typeHealth l) a := by
      unfold typeHealth; rw [List.foldl_append]; rfl
    have hC : typeCounts (l ++ [a]) = countStep (typeCounts l) a := by
      unfold typeCounts; rw [List.foldl_append]; rfl
    rw [hH, hC]
    refine ⟨?_, ?_, ?_⟩
    · rw [countP_concat, ← ih1]
      by_cases ht : t = a.type
      · cases hs : a.status <;> simp [healthStep, ← ht, hs]
      · have ht' : ¬(a.type = t) := fun h => ht h.symm
        simp [healthStep, ht, ht']
    · rw [countP_concat, ← ih2]
      by_cases ht : t = a.type
      · cases hs : a.status <;> simp [healthStep, ← ht, hs]
      · have ht' : ¬(a.type = t) := fun h => ht h.symm
        simp [healthStep, ht, ht']
    · have hstep3 : countStep (typeCounts l) a t = typeCounts l t + (if t = a.type then 1 else 0) := by
        by_cases ht : t = a.type <;> simp [countStep, ht]
      rw [hstep3, ← ih3]
      by_cases ht : t = a.type
      · cases hs : a.status <;> simp [healthStep, ← ht, hs] <;> omega
      · simp [healthStep, ht]

/-- C3: for every agent and heartbeat collection, the per-type last-activity
of a type is the maximum timestamp among heartbeats whose agent identifier
resolves to an agent of that type (dangling identifiers skipped), and a type
with no resolving heartbeats yields no value. -/
theorem type_last_activity_max (agents : List Agent) (heartbeats : List Heartbeat)
    (t : AgentType) :
    typeLastActivity agents heartbeats t
      = ((heartbeats.filter (fun hb => decide (hbOwnerType agents hb = some t))).map
          Heartbeat.timestamp).max?
    ∧ ((heartbeats.filter (fun hb => decide (hbOwnerType agents hb = some t))) = [] →
        typeLastActivity agents heartbeats t = none) := by
  have main : typeLastActivity agents heartbeats t
      = ((heartbeats.filter (fun hb => decide (hbOwnerType agents hb = some t))).map
          Heartbeat.timestamp).max? := by
    induction heartbeats using List.reverseRecOn with
    | nil => rfl
    | append_singleton l hb ih =>
      have hT : typeLastActivity agents (l ++ [hb])
          = lastStep agents (typeLastActivity agents l) hb := by
        unfold typeLastActivity; rw [List.foldl_append]; rfl
      rw [hT, List.filter_append]
      cases hOwn : hbOwnerType agents hb with
      | none => simp [lastStep, hOwn, ih]
      | some ty =>
        by_cases hty : ty = t
        · subst hty
          simp [lastStep, hOwn, List.map_append, max?_concat_bumpLast, ih]
        · have hty' : t ≠ ty := fun h => hty h.symm
          simp [lastStep, hOwn, hty, hty', ih]
  refine ⟨main, fun hempty => ?_⟩
  rw [main, hempty]
  rfl

/-- C7: for every performance-metric collection, the performance index maps
each agent identifier occurring in the collection to a metric row carrying
that identifier, and when several rows share an identifier the last one in
collection order wins. -/
theorem perf_by_agent_last_wins (ms : List PerformanceMetric) (id : String) :
    perfByAgent ms id = (ms.filter (fun m => decide (m.agent_id = id))).getLast?
    ∧ (id ∈ ms.map PerformanceMetric.agent_id →
        ∃ m, perfByAgent ms id = some m ∧ m.agent_id = id) := by
  have main : perfByAgent ms id = (ms.filter (fun m => decide (m.agent_id = id))).getLast? := by
    induction ms using List.reverseRecOn with
    | nil => rfl
    | append_singleton l m ih =>
      have hP : perfByAgent (l ++ [m]) = perfSet (perfByAgent l) m := by
        unfold perfByAgent; rw [List.foldl_append]; rfl
      rw [hP, List.filter_append]
      by_cases hm : m.agent_id = id
      · simp [perfSet, hm, List.getLast?_concat]
      · have hm' : id ≠ m.agent_id := fun h => hm h.symm
        simp [perfSet, hm, hm', ih]
  refine ⟨main, fun hmem => ?_⟩
  rcases List.mem_map.mp hmem with ⟨m, hmMem, hid⟩
  have hmf : m ∈ ms.filter (fun m => decide (m.agent_id = id)) :=
    List.mem_filter.mpr ⟨hmMem, by simp [hid]⟩
  have hne : ms.filter (fun m => decide (m.agent_id = id)) ≠ [] := List.ne_nil_of_mem hmf
  rcases Option.isSome_iff_exists.mp (List.getLast?_isSome.mpr hne) with ⟨mLast, hLast⟩
  have hmemLast := List.mem_of_getLast?_eq_some hLast
  have : mLast.agent_id = id := by
    have := (List.mem_filter.mp hmemLast).2
    simpa using this
  exact ⟨mLast, by rw [main, hLast], this⟩

/-- C9: resolving a selected identifier that is absent from the agent
collection yields no selected agent, and the detail pane shows the
no-selection placeholder. -/
theorem missing_selection_safe (s : DashState) (sid : String)
    (hsel : s.selectedAgentId = some sid) (hmiss : sid ∉ s.agents.map Agent.id) :
    selectedAgent s.agents s.selectedAgentId = none ∧ detailPlaceholder s = true := by
  have h := selectedAgent_none_of_missing s.agents sid hmiss
  rw [detailPlaceholder, hsel, h]
  exact ⟨rfl, rfl⟩

/-- Witness for `missing_selection_safe` at a concrete displayed state. -/
theorem missing_selection_safe_witness :
    sW.selectedAgentId = some "zz" ∧ "zz" ∉ sW.agents.map Agent.id
    ∧ (selectedAgent sW.agents sW.selectedAgentId = none ∧ detailPlaceholder sW = true) :=
  ⟨rfl, by decide, missing_selection_safe sW "zz" rfl (by decide)⟩

/-- C2: counterexample — on the schedule `evStale` the code lets cycle 1's
stale response (agents `[agentA]`), delivered after cycle 2 completed,
overwrite cycle 2's newer snapshot (agents `[agentB]`), while the spec's
discard rule keeps cycle 2's snapshot; so the claimed discard behaviour is
false of the code. -/
theorem stale_cycle_counterexample :
    (runCode evStale sKeep).agents = [agentA]
    ∧ (runDiscard evStale sKeep).agents = [agentB]
    ∧ ¬ staleDiscardClaim := by
  refine ⟨rfl, rfl, fun h => ?_⟩
  have hagents := congrArg DashState.agents (h evStale sKeep)
  rw [show (runCode evStale sKeep).agents = [agentA] from rfl,
    show (runDiscard evStale sKeep).agents = [agentB] from rfl] at hagents
  exact absurd hagents (by decide)

/-- C2 (amended): the code applies every delivered cycle unconditionally in
completion order — last write wins — so whichever successful cycle is
delivered last determines the whole snapshot, stale or not, and the four
collections always come from that one cycle (no torn mix). -/
theorem last_write_wins (evs : List Ev) (n now : Nat) (r : CycleResponses) (s : DashState)
    (hok : fetchError r = none) :
    (runCode (evs ++ [Ev.deliver n r now]) s).agents = r.agentsRes.body
    ∧ (runCode (evs ++ [Ev.deliver n r now]) s).heartbeats = r.hbRes.body
    ∧ (runCode (evs ++ [Ev.deliver n r now]) s).perfMetrics = r.perfRes.body
    ∧ (runCode (evs ++ [Ev.deliver n r now]) s).alerts = r.alertsRes.body
    ∧ (runCode (evs ++ [Ev.deliver n r now]) s).error = none
    ∧ (runCode (evs ++ [Ev.deliver n r now]) s).lastUpdated = some now := by
  have h : runCode (evs ++ [Ev.deliver n r now]) s = fetchAll r now (runCode evs s) := by
    unfold runCode; rw [List.foldl_append]; rfl
  rw [h]
  unfold fetchAll
  rw [hok]
  exact ⟨rfl, rfl, rfl, rfl, rfl, rfl⟩

/-- Witness for `last_write_wins`: the stale cycle 1, delivered after cycle
2 already completed, still determines the final snapshot. -/
theorem last_write_wins_witness :
    fetchError rA = none
    ∧ ((runCode ([Ev.start 1, Ev.start 2, Ev.deliver 2 rB 10] ++ [Ev.deliver 1 rA 11]) sKeep).agents
        = rA.agentsRes.body
      ∧ (runCode ([Ev.start 1, Ev.start 2, Ev.deliver 2 rB 10] ++ [Ev.deliver 1 rA 11]) sKeep).heartbeats
        = rA.hbRes.body
      ∧ (runCode ([Ev.start 1, Ev.start 2, Ev.deliver 2 rB 10] ++ [Ev.deliver 1 rA 11]) sKeep).perfMetrics
        = rA.perfRes.body
      ∧ (runCode ([Ev.start 1, Ev.start 2, Ev.deliver 2 rB 10] ++ [Ev.deliver 1 rA 11]) sKeep).alerts
        = rA.alertsRes.body
      ∧ (runCode ([Ev.start 1, Ev.start 2, Ev.deliver 2 rB 10] ++ [Ev.deliver 1 rA 11]) sKeep).error
        = none
      ∧ (runCode ([Ev.start 1, Ev.start 2, Ev.deliver 2 rB 10] ++ [Ev.deliver 1 rA 11]) sKeep).lastUpdated
        = some 11) :=
  ⟨rfl, last_write_wins [Ev.start 1, Ev.start 2, Ev.deliver 2 rB 10] 1 11 rA sKeep rfl⟩

/-- When all four fetches resolve, the thrown message is exactly the one for
the first resource (in check order) with a non-success status. -/
theorem fetchError_of_firstBadStatus (r : CycleResponses) (res : Resource) (st : Nat)
    (hAll : allResolved r = true) (hFB : firstBadStatus r = some (res, st)) :
    fetchError r = some (failMsg res st) := by
  obtain ⟨ar, hr, pr, alr⟩ := r
  cases ar with
  | rejected m => simp [allResolved, componentStatus] at hAll
  | resolved s1 b1 =>
    cases hr with
    | rejected m => simp [allResolved, componentStatus] at hAll
    | resolved s2 b2 =>
      cases pr with
      | rejected m => simp [allResolved, componentStatus] at hAll
      | resolved s3 b3 =>
        cases alr with
        | rejected m => simp [allResolved, componentStatus] at hAll
        | resolved s4 b4 =>
          by_cases h1 : statusOk s1 <;> by_cases h2 : statusOk s2 <;>
            by_cases h3 : statusOk s3 <;> by_cases h4 : statusOk s4 <;>
            simp [firstBadStatus, componentStatus, List.findSome?, h1, h2, h3, h4] at hFB <;>
            obtain ⟨hres, hst⟩ := hFB <;> subst hres <;> subst hst <;>
            simp [fetchError, h1, h2, h3, h4]

/-- C1: counterexample — a transport failure on the agents fetch surfaces
the runtime's message (`Failed to fetch`), which names neither a resource
nor a status code, and the previously displayed agent list is hidden (the
columns render only under `!loading && !error`), so the claim as stated is
false at this input. -/
theorem refresh_failure_claim_counterexample :
    (fetchAll rNet 6 sShowing).error = some "Failed to fetch"
    ∧ visibleAgents sShowing = [agentA]
    ∧ visibleAgents (fetchAll rNet 6 sShowing) = []
    ∧ (¬ ∃ res st, failsWithStatus rNet res st
        ∧ (fetchAll rNet 6 sShowing).error = some (failMsg res st))
    ∧ ¬ refreshFailureClaim rNet 6 sShowing := by
  have hnoStatus : ¬ ∃ res st, failsWithStatus rNet res st
      ∧ (fetchAll rNet 6 sShowing).error = some (failMsg res st) := by
    rintro ⟨res, st, ⟨hcs, hbad⟩, -⟩
    cases res <;> simp [failsWithStatus, componentStatus, rNet] at hcs <;>
      subst hcs <;> simp [statusOk] at hbad
  refine ⟨rfl, rfl, rfl, hnoStatus, fun h => ?_⟩
  exact hnoStatus h.2.2.2.2.1

/-- C1 (amended): a failing cycle updates none of the four collections, the
selection, or the last-updated stamp; it stores a single error message —
for an all-resolved cycle exactly `Failed to load <resource>: <status>` for
the first failing resource in check order, for a transport failure the
runtime's message verbatim (naming no resource or status in general) — and
while a non-empty error is set the previous snapshot is retained in state
but hidden behind the error banner rather than remaining visible. -/
theorem failed_cycle_behavior (r : CycleResponses) (now : Nat) (s : DashState)
    (hfail : fetchError r ≠ none) :
    (fetchAll r now s).agents = s.agents
    ∧ (fetchAll r now s).heartbeats = s.heartbeats
    ∧ (fetchAll r now s).perfMetrics = s.perfMetrics
    ∧ (fetchAll r now s).alerts = s.alerts
    ∧ (fetchAll r now s).lastUpdated = s.lastUpdated
    ∧ (fetchAll r now s).selectedAgentId = s.selectedAgentId
    ∧ (fetchAll r now s).loading = false
    ∧ (fetchAll r now s).error = fetchError r
    ∧ (∀ res st, allResolved r = true → firstBadStatus r = some (res, st) →
        (fetchAll r now s).error = some (failMsg res st))
    ∧ (∀ msg, fetchError r = some msg → msg ≠ "" →
        columnsVisible (fetchAll r now s) = false
        ∧ errorBannerVisible (fetchAll r now s) = true
        ∧ visibleAgents (fetchAll r now s) = []) := by
  cases hE : fetchError r with
  | none => exact absurd hE hfail
  | some msg =>
    have hF : fetchAll r now s = { s with loading := false, error := some msg } := by
      unfold fetchAll; rw [hE]
    rw [hF]
    refine ⟨rfl, rfl, rfl, rfl, rfl, rfl, rfl, rfl, ?_, ?_⟩
    · intro res st hAll hFB
      have h := fetchError_of_firstBadStatus r res st hAll hFB
      rw [hE] at h
      exact h
    · intro m hm hne
      have hmm : msg = m := Option.some.inj hm
      subst hmm
      refine ⟨?_, ?_, ?_⟩ <;>
        simp [columnsVisible, errorBannerVisible, visibleAgents, jsFalsy, hne]

/-- Witness for `failed_cycle_behavior` at the spec's alerts-500 scenario. -/
theorem failed_cycle_behavior_witness :
    fetchError r500 ≠ none
    ∧ ((fetchAll r500 6 sShowing).agents = sShowing.agents
      ∧ (fetchAll r500 6 sShowing).heartbeats = sShowing.heartbeats
      ∧ (fetchAll r500 6 sShowing).perfMetrics = sShowing.perfMetrics
      ∧ (fetchAll r500 6 sShowing).alerts = sShowing.alerts
      ∧ (fetchAll r500 6 sShowing).lastUpdated = sShowing.lastUpdated
      ∧ (fetchAll r500 6 sShowing).selectedAgentId = sShowing.selectedAgentId
      ∧ (fetchAll r500 6 sShowing).loading = false
      ∧ (fetchAll r500 6 sShowing).error = fetchError r500
      ∧ (∀ res st, allResolved r500 = true → firstBadStatus r500 = some (res, st) →
          (fetchAll r500 6 sShowing).error = some (failMsg res st))
      ∧ (∀ msg, fetchError r500 = some msg → msg ≠ "" →
          columnsVisible (fetchAll r500 6 sShowing) = false
          ∧ errorBannerVisible (fetchAll r500 6 sShowing) = true
          ∧ visibleAgents (fetchAll r500 6 sShowing) = [])) :=
  ⟨by decide, failed_cycle_behavior r500 6 sShowing (by decide)⟩

/-- C5: counterexample — with the empty string selected (a selected but
JS-falsy identifier), a successful refresh replaces the selection with the
first fetched agent instead of letting it survive, so the claim as stated
is false at this input. -/
theorem selection_bootstrap_counterexample :
    sEmptySel.selectedAgentId = some ""
    ∧ (fetchAll rA 7 sEmptySel).selectedAgentId = some "a1"
    ∧ ¬ selectionBootstrapClaim rA 7 sEmptySel := by
  refine ⟨rfl, rfl, fun h => ?_⟩
  have h3 := (h rfl).2.2 "" rfl
  rw [show (fetchAll rA 7 sEmptySel).selectedAgentId = some "a1" from rfl] at h3
  exact absurd h3 (by decide)

/-- C5 (amended): after a successful refresh, a null selection with a
non-empty collection becomes its first agent's identifier; a null selection
with an empty collection stays null and the detail pane shows the
no-selection placeholder; a selected non-empty identifier survives; but a
selected empty-string identifier is JS-falsy and is replaced by the first
agent's identifier. -/
theorem selection_bootstrap (r : CycleResponses) (now : Nat) (s : DashState)
    (hok : fetchError r = none) :
    (∀ a rest, s.selectedAgentId = none → r.agentsRes.body = a :: rest →
        (fetchAll r now s).selectedAgentId = some a.id)
    ∧ (s.selectedAgentId = none → r.agentsRes.body = [] →
        (fetchAll r now s).selectedAgentId = none
        ∧ detailPlaceholder (fetchAll r now s) = true)
    ∧ (∀ sid, sid ≠ "" → s.selectedAgentId = some sid →
        (fetchAll r now s).selectedAgentId = some sid)
    ∧ (∀ a rest, s.selectedAgentId = some "" → r.agentsRes.body = a :: rest →
        (fetchAll r now s).selectedAgentId = some a.id) := by
  have hF : fetchAll r now s =
      { s with
        agents := r.agentsRes.body
        heartbeats := r.hbRes.body
        perfMetrics := r.perfRes.body
        alerts := r.alertsRes.body
        loading := false
        error := none
        lastUpdated := some now
        selectedAgentId :=
          match r.agentsRes.body with
          | [] => s.selectedAgentId
          | a :: _ =>
            if jsFalsy s.selectedAgentId then some a.id else s.selectedAgentId } := by
    unfold fetchAll; rw [hok]
  rw [hF]
  refine ⟨?_, ?_, ?_, ?_⟩
  · intro a rest hsel hbody
    simp [hbody, hsel, jsFalsy]
  · intro hsel hbody
    refine ⟨by simp [hbody, hsel], ?_⟩
    simp [detailPlaceholder, selectedAgent, hbody]
  · intro sid hne hsel
    cases hbody : r.agentsRes.body with
    | nil => simp [hsel]
    | cons a rest => simp [hsel, jsFalsy, hne]
  · intro a rest hsel hbody
    simp [hbody, hsel, jsFalsy]

/-- Witness for `selection_bootstrap`: first load from the initial state
with a non-empty collection selects the first agent. -/
theorem selection_bootstrap_witness :
    fetchError rA = none
    ∧ ((∀ a rest, initialState.selectedAgentId = none → rA.agentsRes.body = a :: rest →
          (fetchAll rA 7 initialState).selectedAgentId = some a.id)
      ∧ (initialState.selectedAgentId = none → rA.agentsRes.body = [] →
          (fetchAll rA 7 initialState).selectedAgentId = none
          ∧ detailPlaceholder (fetchAll rA 7 initialState) = true)
      ∧ (∀ sid, sid ≠ "" → initialState.selectedAgentId = some sid →
          (fetchAll rA 7 initialState).selectedAgentId = some sid)
      ∧ (∀ a rest, initialState.selectedAgentId = some "" → rA.agentsRes.body = a :: rest →
          (fetchAll rA 7 initialState).selectedAgentId = some a.id)) :=
  ⟨rfl, selection_bootstrap rA 7 initialState rfl⟩

/-- C10: counterexample — a successful refresh changes the selected
identifier from the empty string (which is not null) to the first fetched
agent's identifier, and this dangling empty identifier is not kept, so the
claim as stated is false at this input. -/
theorem refresh_selection_frame_counterexample :
    sStaleSel.selectedAgentId = some ""
    ∧ (fetchAll rB 9 sStaleSel).selectedAgentId = some "b1"
    ∧ ¬ selectionFrameClaim rB 9 sStaleSel := by
  refine ⟨rfl, rfl, fun h => ?_⟩
  have h1 := (h rfl).1 (by decide)
  exact absurd h1.1 (by decide)

/-- C10 (amended): a successful refresh changes the selected identifier
only when it was JS-falsy — null or the empty string — beforehand (and the
new collection is non-empty); a selected non-empty identifier is never
changed, and in particular a dangling non-empty identifier is kept and then
resolves to no agent. -/
theorem refresh_selection_frame (r : CycleResponses) (now : Nat) (s : DashState)
    (hok : fetchError r = none) :
    ((fetchAll r now s).selectedAgentId ≠ s.selectedAgentId →
        jsFalsy s.selectedAgentId = true ∧ r.agentsRes.body ≠ [])
    ∧ (∀ sid, sid ≠ "" → s.selectedAgentId = some sid →
        (fetchAll r now s).selectedAgentId = some sid)
    ∧ (∀ sid, sid ≠ "" → s.selectedAgentId = some sid →
        sid ∉ r.agentsRes.body.map Agent.id →
        (fetchAll r now s).selectedAgentId = some sid
        ∧ selectedAgent (fetchAll r now s).agents (fetchAll r now s).selectedAgentId = none) := by
  have hsel : (fetchAll r now s).selectedAgentId =
      match r.agentsRes.body with
      | [] => s.selectedAgentId
      | a :: _ =>
        if jsFalsy s.selectedAgentId then some a.id else s.selectedAgentId := by
    unfold fetchAll; rw [hok]
  have hagents : (fetchAll r now s).agents = r.agentsRes.body := by
    unfold fetchAll; rw [hok]
  have hkeep : ∀ sid, sid ≠ "" → s.selectedAgentId = some sid →
      (fetchAll r now s).selectedAgentId = some sid := by
    intro sid hne hs
    rw [hsel]
    cases hbody : r.agentsRes.body with
    | nil => exact hs
    | cons a rest => simp [hs, jsFalsy, hne]
  refine ⟨?_, hkeep, ?_⟩
  · intro hchange
    rw [hsel] at hchange
    cases hbody : r.agentsRes.body with
    | nil => rw [hbody] at hchange; exact absurd rfl hchange
    | cons a rest =>
      rw [hbody] at hchange
      by_cases hf : jsFalsy s.selectedAgentId
      · exact ⟨hf, by simp⟩
      · simp [hf] at hchange
  · intro sid hne hs hmiss
    have h1 := hkeep sid hne hs
    refine ⟨h1, ?_⟩
    rw [hagents, h1]
    exact selectedAgent_none_of_missing r.agentsRes.body sid hmiss

/-- Witness for `refresh_selection_frame`: a live non-empty selection is
kept across a refresh that no longer contains it, and then resolves to no
agent. -/
theorem refresh_selection_frame_witness :
    fetchError rB = none
    ∧ (((fetchAll rB 12 sShowing).selectedAgentId ≠ sShowing.selectedAgentId →
          jsFalsy sShowing.selectedAgentId = true ∧ rB.agentsRes.body ≠ [])
      ∧ (∀ sid, sid ≠ "" → sShowing.selectedAgentId = some sid →
          (fetchAll rB 12 sShowing).selectedAgentId = some sid)
      ∧ (∀ sid, sid ≠ "" → sShowing.selectedAgentId = some sid →
          sid ∉ rB.agentsRes.body.map Agent.id →
          (fetchAll rB 12 sShowing).selectedAgentId = some sid
          ∧ selectedAgent (fetchAll rB 12 sShowing).agents
              (fetchAll rB 12 sShowing).selectedAgentId = none)) :=
  ⟨rfl, refresh_selection_frame rB 12 sShowing rfl⟩
